import Mathlib

/-!
Shallow embedding of the `stackstorm-orion` pack's core helpers
(`actions/lib/actions.py`, `actions/get_node_id.py`).

Python dictionaries with string keys are modelled as association lists;
Python exceptions as an explicit `PyError` sum carried in `Except`.
A SWQL response `{"results": [...]}` whose `results` key may be absent is
modelled as `Option (List row)`; the query client itself is a parameter
(a function from the SWQL string and its named parameter to a response),
so each helper is a pure function of its environment.
-/

namespace Orion

/-- The Python exceptions that appear in (or escape from) the embedded code.
`keyError` carries the missing key, `valueError` and `exception` their
message; `indexError` models a list index out of range; `unboundLocalError`
models reading a local variable before assignment. -/
inductive PyError where
  | valueError (msg : String)
  | keyError (key : String)
  | indexError
  | unboundLocalError
  | exception (msg : String)
  deriving Repr, DecidableEq

/-- Python `d[k]` on a string-keyed dict: the value, or `KeyError(k)`. -/
def dictGet {α : Type} (d : List (String × α)) (k : String) : Except PyError α :=
  match d.lookup k with
  | some v => Except.ok v
  | none => Except.error (PyError.keyError k)

/-- Python `try: body except IndexError: handler`. -/
def catchIndexError {α : Type} (body : Except PyError α)
    (handler : Unit → Except PyError α) : Except PyError α :=
  match body with
  | Except.error PyError.indexError => handler ()
  | r => r

/-- Python `try: body except KeyError: handler`. -/
def catchKeyError {α : Type} (body : Except PyError α)
    (handler : String → Except PyError α) : Except PyError α :=
  match body with
  | Except.error (PyError.keyError k) => handler k
  | r => r

/-- Python `try: body except ValueError: handler`. -/
def catchValueError {α : Type} (body : Except PyError α)
    (handler : String → Except PyError α) : Except PyError α :=
  match body with
  | Except.error (PyError.valueError m) => handler m
  | r => r

/-- One `config['orion'][platform]` entry: host, user, password
(spec section 3, consumed by `connect`). -/
structure PlatformEntry where
  host : String
  user : String
  password : String
  deriving Repr, DecidableEq

/-- The `defaults` entry of the pack's config: the `platform` key may be
absent (`none`), and `snmp` maps standard community names to literal
community strings. -/
structure Defaults where
  platform : Option String
  snmp : List (String × String)
  deriving Repr, DecidableEq

/-- The pack's configuration as read by `OrionBaseAction`: the `orion`
dict of platforms, and an optional `defaults` dict. -/
structure Config where
  orion : List (String × PlatformEntry)
  defaults : Option Defaults
  deriving Repr, DecidableEq

/-- `config['defaults']` as a dict access: `KeyError('defaults')` when the
key is absent. -/
def configDefaults (cfg : Config) : Except PyError Defaults :=
  match cfg.defaults with
  | some d => Except.ok d
  | none => Except.error (PyError.keyError "defaults")

/-- `config['defaults']['platform']`: raises `KeyError` when either key is
absent (a Python dict lookup raises `KeyError`, never `IndexError`). -/
def configDefaultPlatform (cfg : Config) : Except PyError String :=
  match configDefaults cfg with
  | Except.error e => Except.error e
  | Except.ok d =>
    match d.platform with
    | some p => Except.ok p
    | none => Except.error (PyError.keyError "platform")

/-- `OrionBaseAction.connect` (actions.py lines 34-55). When `platform` is
`None` the default platform is read from config inside
`try: ... except IndexError:` — the handler that would raise
`ValueError("No default Orion platform.")` only fires on `IndexError`.
The `SwisClient` construction is modelled by returning the platform's
credential entry alongside the resolved platform name; its surrounding
`try/except KeyError` maps a missing platform entry to
`ValueError("Orion host details not in the config.yaml")`. -/
def connect (cfg : Config) (platform : Option String) :
    Except PyError (String × PlatformEntry) :=
  let resolved : Except PyError String :=
    match platform with
    | some p => Except.ok p
    | none =>
        catchIndexError (configDefaultPlatform cfg)
          (fun _ => Except.error (PyError.valueError "No default Orion platform."))
  match resolved with
  | Except.error e => Except.error e
  | Except.ok platform =>
    match catchKeyError (dictGet cfg.orion platform)
        (fun _ => Except.error
          (PyError.valueError "Orion host details not in the config.yaml")) with
    | Except.error e => Except.error e
    | Except.ok client => Except.ok (platform, client)

/-- A row of the `Orion.Nodes` query in `get_node` (the selected columns). -/
structure NodeRow where
  NodeID : Int
  Uri : String
  IPAddress : String
  Caption : String
  deriving Repr, DecidableEq

/-- A row of the `Cirrus.Nodes` query in `get_node`. -/
structure NcmRow where
  NodeID : Int
  deriving Repr, DecidableEq

/-- Modelled from the spec: `lib/node.py` is not under src/. The node
record of spec section 3: fields `npm_id`, `uri`, `ip_address`, `caption`,
`ncm_id`, all nullable and initially unset. -/
structure OrionNode where
  npm_id : Option Int := none
  uri : Option String := none
  ip_address : Option String := none
  caption : Option String := none
  ncm_id : Option Int := none
  deriving Repr, DecidableEq

/-- Modelled from the spec: the `npm` flag of the missing `lib/node.py`,
used by `get_node` to guard the secondary lookup. Per spec section 4.2
("If `npm_id` is set, issue a secondary lookup") it holds exactly when
`npm_id` is set. -/
def OrionNode.npm (n : OrionNode) : Bool := n.npm_id.isSome

/-- The SWQL string `get_node` sends for its primary lookup
(actions.py lines 69-71), with the `{}` placeholder filled by `format`. -/
def get_node_swql (query_for_where : String) : String :=
  "SELECT NodeID, Uri, IPAddress, Caption\n        FROM Orion.Nodes\n        WHERE "
    ++ query_for_where ++ "=@query_on"

/-- The SWQL string `get_node` sends for its secondary (NCM) lookup
(actions.py lines 96-98). -/
def ncm_swql : String :=
  "SELECT NodeID\n            FROM Cirrus.Nodes\n            WHERE CoreNodeID=@CoreNodeID"

/-- The ambiguous-match error message of actions.py line 92
(`"Muliple Nodes match '{}' Caption".format(node)`, typo as in source). -/
def multiple_nodes_msg (node : String) : String :=
  "Muliple Nodes match \x27" ++ node ++ "\x27 Caption"

/-- The secondary (NCM) lookup step of `get_node` (actions.py lines
95-111): guarded by `orion_node.npm`; a response without a `results` key
(`none`) is only logged, and only a single-row response populates
`ncm_id`. -/
def get_node_ncm_step (ncmQuery : String → Int → Option (List NcmRow))
    (orion_node : OrionNode) : OrionNode :=
  if orion_node.npm then
    match orion_node.npm_id with
    | some npmId =>
        match ncmQuery ncm_swql npmId with
        | some [row] => { orion_node with ncm_id := some row.NodeID }
        | _ => orion_node
    | none => orion_node
  else
    orion_node

/-- `OrionBaseAction.get_node` (actions.py lines 57-113).
`is_ip` stands for `lib.utils.is_ip` (not under src/; abstracted as the
classifier parameter). `query` is the client for the primary lookup and
`ncmQuery` for the secondary one; each takes the SWQL string and the named
parameter and returns the response's `results` list, or `none` when the
response lacks a `results` key. The `try/except IndexError: pass` around
the row field reads can never fire (the row of a length-1 list exists and
a missing column would be a `KeyError`), so it is not represented. The
error message of line 78 appends the formatted response dict, which this
embedding does not model. -/
def get_node (is_ip : String → Bool)
    (query : String → String → Option (List NodeRow))
    (ncmQuery : String → Int → Option (List NcmRow))
    (node : String) : Except PyError OrionNode :=
  match query (get_node_swql (if is_ip node then "IPAddress" else "Caption")) node with
  | none => Except.error (PyError.exception "No results from Orion")
  | some [row] =>
      Except.ok (get_node_ncm_step ncmQuery
        { npm_id := some row.NodeID
          uri := some row.Uri
          ip_address := some row.IPAddress
          caption := some row.Caption })
  | some (_ :: _ :: _) =>
      Except.error (PyError.valueError (multiple_nodes_msg node))
  | some [] => Except.ok (get_node_ncm_step ncmQuery {})

/-- `OrionBaseAction.get_snmp_community` (actions.py lines 151-163). -/
def get_snmp_community (cfg : Config)
    (community std_community : Option String) : Except PyError String :=
  match community with
  | some c => Except.ok c
  | none =>
    match std_community with
    | some s =>
        catchKeyError
          (match configDefaults cfg with
           | Except.error e => Except.error e
           | Except.ok d => dictGet d.snmp s)
          (fun _ => Except.error (PyError.valueError "Invalid standard community"))
    | none =>
        Except.error (PyError.valueError "Need one of community or std_community")

/-- A row of the `Orion.Credential` query in `get_snmp_cred_id`. -/
structure CredRow where
  ID : Int
  deriving Repr, DecidableEq

/-- The fixed credential-type constant of actions.py line 182. -/
def credential_type : String :=
  "SolarWinds.Orion.Core.Models.Credentials.SnmpCredentialsV2"

/-- The SWQL string of `get_snmp_cred_id` (actions.py lines 178-179). -/
def cred_swql : String :=
  "SELECT ID FROM Orion.Credential\n        WHERE CredentialType=@CredentialType and Name=@name"

/-- `OrionBaseAction.get_snmp_cred_id` (actions.py lines 165-190).
`query` takes the SWQL string, the `CredentialType` parameter and the
`name` parameter and returns the response's `results` list. -/
def get_snmp_cred_id (cfg : Config)
    (query : String → String → String → List CredRow)
    (community : String) : Except PyError Int :=
  match catchValueError (get_snmp_community cfg none (some community))
      (fun _ => Except.ok community) with
  | Except.error e => Except.error e
  | Except.ok name =>
    match query cred_swql credential_type name with
    | [row] => Except.ok row.ID
    | _ =>
        Except.error
          (PyError.valueError "Failed to lookup community in Orion.Credential!")

/-- A row of the `NCM.TransferResults` query in `get_ncm_transfer_results`
(the columns the function reads). -/
structure TransferRow where
  Status : Int
  RequestedScript : String
  RequestedReboot : Bool
  ErrorMessage : String
  DeviceOutput : String
  UserName : String
  deriving Repr, DecidableEq

/-- The transfer status record `ts` assembled by `get_ncm_transfer_results`
(actions.py lines 239-252). -/
structure TransferStatus where
  status : String
  RequestedScript : String
  RequestedReboot : Bool
  ErrorMessage : String
  DeviceOutput : String
  UserName : String
  deriving Repr, DecidableEq

/-- The record assembly of actions.py lines 248-252, from the row of the
terminal poll, with the `status` string set by the branch taken. -/
def mkTransferStatus (statusName : String) (row : TransferRow) : TransferStatus :=
  { status := statusName
    RequestedScript := row.RequestedScript
    RequestedReboot := row.RequestedReboot
    ErrorMessage := row.ErrorMessage
    DeviceOutput := row.DeviceOutput
    UserName := row.UserName }

/-- `OrionBaseAction.get_ncm_transfer_results` (actions.py lines 217-254).
`polls` is the sequence of `results` lists returned by the successive
status queries (`transfer_data['results']`, in poll order). Each status-1
poll sleeps once and re-polls; the returned `Nat` counts those sleeps. A
poll with an empty `results` list makes line 234's `[0]` raise
`IndexError`. `none` models the case where the modelled poll sequence is
exhausted while the status is still 1: the Python loop would keep polling
(it is unbounded). -/
def get_ncm_transfer_results (polls : List (List TransferRow)) :
    Option (Except PyError (Nat × TransferStatus)) :=
  match polls with
  | [] => none
  | rows :: rest =>
    match rows with
    | [] => some (Except.error PyError.indexError)
    | row :: _ =>
      if row.Status = 1 then
        match get_ncm_transfer_results rest with
        | none => none
        | some (Except.error e) => some (Except.error e)
        | some (Except.ok (n, ts)) => some (Except.ok (n + 1, ts))
      else if row.Status = 2 then
        some (Except.ok (0, mkTransferStatus "Complete" row))
      else if row.Status = 3 then
        some (Except.ok (0, mkTransferStatus "Error" row))
      else
        some (Except.ok (0, mkTransferStatus "Unknown" row))

/-- Python `str(x)` for the optional `matchstring` of `GetNodeId.run`
(`"%s" % None` renders as `"None"`). -/
def pyStr (s : Option String) : String :=
  match s with
  | some v => v
  | none => "None"

/-- The SWQL string built by `GetNodeId.run` (get_node_id.py lines 27-31). -/
def get_node_id_swql (matchtype matchstring : Option String) : String :=
  let swql := "SELECT nodeid, sysname, caption FROM Orion.Nodes"
  if matchtype = some "sysname" then
    swql ++ " where sysname = \x27" ++ pyStr matchstring ++ "\x27"
  else if matchtype = some "caption" then
    swql ++ " where Caption = \x27" ++ pyStr matchstring ++ "\x27"
  else
    swql

/-- `GetNodeId.run` (get_node_id.py lines 20-39), from the query call
onward (the preceding `self.connect()` is taken as succeeding). `query`
maps the SWQL string to the platform's response `orion_data`, of an opaque
type `α`, or to a raised exception. The bare `except:` handler executes
`orion_data['results'] = "empty"`, but `orion_data` was never assigned
(the assignment that failed was its only binding), so the subscript
assignment raises `UnboundLocalError` instead of producing a result. -/
def GetNodeId_run {α : Type} (query : String → Except PyError α)
    (matchtype matchstring : Option String) : Except PyError α :=
  let swql := get_node_id_swql matchtype matchstring
  match query swql with
  | Except.ok d => Except.ok d
  | Except.error _ => Except.error PyError.unboundLocalError

/-- The standard-community mapping lookup `config['defaults']['snmp'][s]`
as a partial function: `some v` exactly when all keys resolve. -/
def snmpMapping (cfg : Config) (s : String) : Option String :=
  match cfg.defaults with
  | some d => d.snmp.lookup s
  | none => none

/-- The response `get_node`'s primary lookup consumes: `query` applied at
the SWQL built from the classified field (actions.py lines 64-73). -/
def primary_response (is_ip : String → Bool)
    (query : String → String → Option (List NodeRow)) (node : String) :
    Option (List NodeRow) :=
  query (get_node_swql (if is_ip node then "IPAddress" else "Caption")) node

/-! Theorems. -/

/-- The NCM step never changes the primary fields. -/
theorem get_node_ncm_step_npm_id (ncmQuery : String → Int → Option (List NcmRow))
    (n : OrionNode) : (get_node_ncm_step ncmQuery n).npm_id = n.npm_id := by
  unfold get_node_ncm_step
  split
  · split
    · split <;> simp_all
    · rfl
  · rfl

/-- The NCM step never changes `uri`. -/
theorem get_node_ncm_step_uri (ncmQuery : String → Int → Option (List NcmRow))
    (n : OrionNode) : (get_node_ncm_step ncmQuery n).uri = n.uri := by
  unfold get_node_ncm_step
  split
  · split
    · split <;> simp_all
    · rfl
  · rfl

/-- The NCM step never changes `ip_address`. -/
theorem get_node_ncm_step_ip_address (ncmQuery : String → Int → Option (List NcmRow))
    (n : OrionNode) : (get_node_ncm_step ncmQuery n).ip_address = n.ip_address := by
  unfold get_node_ncm_step
  split
  · split
    · split <;> simp_all
    · rfl
  · rfl

/-- The NCM step never changes `caption`. -/
theorem get_node_ncm_step_caption (ncmQuery : String → Int → Option (List NcmRow))
    (n : OrionNode) : (get_node_ncm_step ncmQuery n).caption = n.caption := by
  unfold get_node_ncm_step
  split
  · split
    · split <;> simp_all
    · rfl
  · rfl

/-- The NCM step on a record with no `npm_id` is the identity. -/
theorem get_node_ncm_step_empty (ncmQuery : String → Int → Option (List NcmRow)) :
    get_node_ncm_step ncmQuery {} = {} := rfl

/-- C1: `get_node` on zero primary rows returns the all-unset record
without error; on exactly one row it populates `npm_id`, `uri`,
`ip_address` and `caption` from that row; on two or more rows it fails
with a `ValueError` whose message names the identifier. -/
theorem get_node_row_count_cases (is_ip : String → Bool)
    (query : String → String → Option (List NodeRow))
    (ncmQuery : String → Int → Option (List NcmRow)) (node : String) :
    (primary_response is_ip query node = some [] →
      get_node is_ip query ncmQuery node = Except.ok {}) ∧
    (∀ row : NodeRow, primary_response is_ip query node = some [row] →
      ∃ n : OrionNode, get_node is_ip query ncmQuery node = Except.ok n ∧
        n.npm_id = some row.NodeID ∧ n.uri = some row.Uri ∧
        n.ip_address = some row.IPAddress ∧ n.caption = some row.Caption) ∧
    (∀ (r1 r2 : NodeRow) (rs : List NodeRow),
      primary_response is_ip query node = some (r1 :: r2 :: rs) →
      get_node is_ip query ncmQuery node =
        Except.error (PyError.valueError (multiple_nodes_msg node))) := by
  refine ⟨fun h => ?_, fun row h => ?_, fun r1 r2 rs h => ?_⟩
  · unfold primary_response at h
    unfold get_node
    rw [h, get_node_ncm_step_empty]
  · unfold primary_response at h
    unfold get_node
    rw [h]
    exact ⟨_, rfl, by rw [get_node_ncm_step_npm_id],
      by rw [get_node_ncm_step_uri], by rw [get_node_ncm_step_ip_address],
      by rw [get_node_ncm_step_caption]⟩
  · unfold primary_response at h
    unfold get_node
    rw [h]

/-- Witness for C1: the three row-count cases at concrete inputs. -/
theorem get_node_row_count_cases_witness :
    get_node (fun _ => false) (fun _ _ => some [])
      (fun _ _ => some [⟨77⟩]) "web01" = Except.ok {} ∧
    (∃ n : OrionNode,
      get_node (fun _ => false) (fun _ _ => some [⟨5, "u1", "10.0.0.5", "web01"⟩])
        (fun _ _ => some [⟨77⟩]) "web01" = Except.ok n ∧
      n.npm_id = some 5 ∧ n.uri = some "u1" ∧
      n.ip_address = some "10.0.0.5" ∧ n.caption = some "web01") ∧
    get_node (fun _ => false)
      (fun _ _ => some [⟨5, "u1", "10.0.0.5", "web01"⟩, ⟨6, "u2", "10.0.0.6", "web01"⟩])
      (fun _ _ => some [⟨77⟩]) "web01" =
      Except.error (PyError.valueError (multiple_nodes_msg "web01")) :=
  ⟨(get_node_row_count_cases _ _ _ _).1 rfl,
   (get_node_row_count_cases _ _ _ _).2.1 ⟨5, "u1", "10.0.0.5", "web01"⟩ rfl,
   (get_node_row_count_cases _ _ _ _).2.2 ⟨5, "u1", "10.0.0.5", "web01"⟩
     ⟨6, "u2", "10.0.0.6", "web01"⟩ [] rfl⟩

/-- C5: any node record `get_node` returns with `ncm_id` populated also
has `npm_id` populated. -/
theorem get_node_ncm_id_requires_npm_id (is_ip : String → Bool)
    (query : String → String → Option (List NodeRow))
    (ncmQuery : String → Int → Option (List NcmRow)) (node : String)
    (n : OrionNode)
    (hok : get_node is_ip query ncmQuery node = Except.ok n)
    (hncm : n.ncm_id.isSome = true) : n.npm_id.isSome = true := by
  unfold get_node at hok
  cases hq : query (get_node_swql (if is_ip node then "IPAddress" else "Caption")) node with
  | none => rw [hq] at hok; cases hok
  | some results =>
    rw [hq] at hok
    rcases results with _ | ⟨row, _ | ⟨r2, rs⟩⟩
    · rw [get_node_ncm_step_empty] at hok
      cases hok
      cases hncm
    · have hn : get_node_ncm_step ncmQuery
          { npm_id := some row.NodeID, uri := some row.Uri,
            ip_address := some row.IPAddress, caption := some row.Caption } = n := by
        cases hok; rfl
      rw [← hn, get_node_ncm_step_npm_id]
      rfl
    · cases hok

/-- Witness for C5: a concrete run returning a record with both ids set. -/
theorem get_node_ncm_id_requires_npm_id_witness :
    (⟨some 5, some "u1", some "10.0.0.5", some "web01", some 77⟩ : OrionNode).npm_id.isSome = true :=
  get_node_ncm_id_requires_npm_id (fun _ => false)
    (fun _ _ => some [⟨5, "u1", "10.0.0.5", "web01"⟩])
    (fun _ _ => some [⟨77⟩]) "web01" _ rfl rfl

/-- C9: a primary response lacking the `results` key makes `get_node`
raise, while a secondary (NCM) response lacking the `results` key is
tolerated silently and the record is returned with `ncm_id` unset. -/
theorem get_node_results_key_asymmetry (is_ip : String → Bool)
    (query : String → String → Option (List NodeRow))
    (ncmQuery : String → Int → Option (List NcmRow)) (node : String) :
    (primary_response is_ip query node = none →
      get_node is_ip query ncmQuery node =
        Except.error (PyError.exception "No results from Orion")) ∧
    (∀ row : NodeRow, primary_response is_ip query node = some [row] →
      ncmQuery ncm_swql row.NodeID = none →
      get_node is_ip query ncmQuery node =
        Except.ok { npm_id := some row.NodeID, uri := some row.Uri,
                    ip_address := some row.IPAddress, caption := some row.Caption,
                    ncm_id := none }) := by
  constructor
  · intro h
    unfold primary_response at h
    unfold get_node
    rw [h]
  · intro row h hn
    unfold primary_response at h
    unfold get_node
    rw [h]
    unfold get_node_ncm_step
    simp [OrionNode.npm, hn]

/-- Witness for C9: both halves at concrete inputs. -/
theorem get_node_results_key_asymmetry_witness :
    get_node (fun _ => false) (fun _ _ => none) (fun _ _ => some [⟨77⟩]) "web01" =
      Except.error (PyError.exception "No results from Orion") ∧
    get_node (fun _ => false) (fun _ _ => some [⟨5, "u1", "10.0.0.5", "web01"⟩])
      (fun _ _ => none) "web01" =
      Except.ok { npm_id := some 5, uri := some "u1",
                  ip_address := some "10.0.0.5", caption := some "web01",
                  ncm_id := none } :=
  ⟨(get_node_results_key_asymmetry _ _ _ _).1 rfl,
   (get_node_results_key_asymmetry _ _ _ _).2 ⟨5, "u1", "10.0.0.5", "web01"⟩ rfl rfl⟩

/-- C4: `get_node`'s result depends on the query client only through its
response to the SWQL whose WHERE clause uses the classified field:
`IPAddress` when `is_ip` accepts the identifier, `Caption` otherwise. -/
theorem get_node_filter_field (is_ip : String → Bool)
    (query query2 : String → String → Option (List NodeRow))
    (ncmQuery : String → Int → Option (List NcmRow)) (node : String) :
    (is_ip node = true →
      query (get_node_swql "IPAddress") node = query2 (get_node_swql "IPAddress") node →
      get_node is_ip query ncmQuery node = get_node is_ip query2 ncmQuery node) ∧
    (is_ip node = false →
      query (get_node_swql "Caption") node = query2 (get_node_swql "Caption") node →
      get_node is_ip query ncmQuery node = get_node is_ip query2 ncmQuery node) := by
  constructor <;> intro hip hq <;> unfold get_node <;> simp only [hip] <;>
    simp only [if_true, Bool.false_eq_true, if_false, hq]

/-- Witness for C4: classifier accepting the identifier, two clients that
agree at the IPAddress-filtered SWQL but differ at the Caption-filtered
one; `get_node` cannot tell them apart. -/
theorem get_node_filter_field_witness :
    get_node (fun _ => true) (fun _ _ => some [])
      (fun _ _ => some [⟨77⟩]) "10.0.0.5" =
    get_node (fun _ => true)
      (fun s _ => if s = get_node_swql "Caption" then some [⟨1, "a", "b", "c"⟩] else some [])
      (fun _ _ => some [⟨77⟩]) "10.0.0.5" :=
  (get_node_filter_field (fun _ => true) (fun _ _ => some [])
    (fun s _ => if s = get_node_swql "Caption" then some [⟨1, "a", "b", "c"⟩] else some [])
    (fun _ _ => some [⟨77⟩]) "10.0.0.5").1 rfl (by decide)

/-- C2 evaluated: `connect(None)` with no configured default platform
raises an unhandled `KeyError` — the handler that would turn it into
`ValueError("No default Orion platform.")` catches `IndexError`, which a
dict lookup never raises. When a default is configured it is substituted
and connection proceeds. -/
theorem connect_missing_default_crashes :
    connect { orion := [("main", ⟨"host1", "admin", "pw"⟩)], defaults := none } none =
      Except.error (PyError.keyError "defaults") ∧
    connect { orion := [("main", ⟨"host1", "admin", "pw"⟩)],
              defaults := some { platform := none, snmp := [] } } none =
      Except.error (PyError.keyError "platform") ∧
    connect { orion := [("main", ⟨"host1", "admin", "pw"⟩)],
              defaults := some { platform := some "main", snmp := [] } } none =
      Except.ok ("main", ⟨"host1", "admin", "pw"⟩) :=
  ⟨rfl, rfl, rfl⟩

/-- C6: an explicit community is returned unchanged; otherwise a provided
standard name resolves through the configuration mapping, failing with the
invalid-standard `ValueError` when absent; with neither argument the
missing-argument `ValueError` is raised. -/
theorem get_snmp_community_cases (cfg : Config) (c s : String) :
    (∀ sc : Option String, get_snmp_community cfg (some c) sc = Except.ok c) ∧
    (∀ v : String, snmpMapping cfg s = some v →
      get_snmp_community cfg none (some s) = Except.ok v) ∧
    (snmpMapping cfg s = none →
      get_snmp_community cfg none (some s) =
        Except.error (PyError.valueError "Invalid standard community")) ∧
    (get_snmp_community cfg none none =
      Except.error (PyError.valueError "Need one of community or std_community")) := by
  refine ⟨fun sc => rfl, fun v hv => ?_, fun hv => ?_, rfl⟩
  · unfold snmpMapping at hv
    rcases hcd : cfg.defaults with _ | d
    · rw [hcd] at hv; cases hv
    · rw [hcd] at hv
      have hv' : List.lookup s d.snmp = some v := hv
      unfold get_snmp_community
      simp only [catchKeyError, configDefaults, dictGet, hcd]
      rw [hv']
  · unfold snmpMapping at hv
    rcases hcd : cfg.defaults with _ | d
    · unfold get_snmp_community
      simp [catchKeyError, configDefaults, hcd]
    · rw [hcd] at hv
      have hv' : List.lookup s d.snmp = none := hv
      unfold get_snmp_community
      simp only [catchKeyError, configDefaults, dictGet, hcd]
      rw [hv']

/-- Witness for C6: all four cases at a concrete configuration. -/
theorem get_snmp_community_cases_witness :
    get_snmp_community ⟨[], some ⟨none, [("ro", "roro")]⟩⟩ (some "public") none =
      Except.ok "public" ∧
    get_snmp_community ⟨[], some ⟨none, [("ro", "roro")]⟩⟩ none (some "ro") =
      Except.ok "roro" ∧
    get_snmp_community ⟨[], some ⟨none, [("ro", "roro")]⟩⟩ none (some "bad") =
      Except.error (PyError.valueError "Invalid standard community") ∧
    get_snmp_community ⟨[], some ⟨none, [("ro", "roro")]⟩⟩ none none =
      Except.error (PyError.valueError "Need one of community or std_community") :=
  ⟨(get_snmp_community_cases ⟨[], some ⟨none, [("ro", "roro")]⟩⟩ "public" "x").1 none,
   (get_snmp_community_cases ⟨[], some ⟨none, [("ro", "roro")]⟩⟩ "c" "ro").2.1 "roro" rfl,
   (get_snmp_community_cases ⟨[], some ⟨none, [("ro", "roro")]⟩⟩ "c" "bad").2.2.1 rfl,
   (get_snmp_community_cases ⟨[], some ⟨none, [("ro", "roro")]⟩⟩ "c" "x").2.2.2⟩

/-- The name `get_snmp_cred_id` resolves before querying: the standard
mapping's entry when the input is a known standard name, the input itself
otherwise (the `except ValueError` fallback of actions.py line 175). -/
theorem get_snmp_cred_id_name (cfg : Config) (community : String) :
    catchValueError (get_snmp_community cfg none (some community))
      (fun _ => Except.ok community) =
    Except.ok ((snmpMapping cfg community).getD community) := by
  rcases hcd : cfg.defaults with _ | d
  · simp [get_snmp_community, catchValueError, catchKeyError, configDefaults,
      snmpMapping, hcd]
  · rcases hl : d.snmp.lookup community with _ | v <;>
      simp [get_snmp_community, catchValueError, catchKeyError, configDefaults,
        dictGet, snmpMapping, hcd, hl]

/-- C7: the credential lookup queries by the fixed SNMP-v2 type constant
and the resolved name (standard mapping first, literal fallback), returns
the id on exactly one row, and fails with the lookup `ValueError` on zero
or multiple rows. -/
theorem get_snmp_cred_id_cases (cfg : Config)
    (query : String → String → String → List CredRow) (community : String) :
    (∀ row : CredRow,
      query cred_swql credential_type ((snmpMapping cfg community).getD community) = [row] →
      get_snmp_cred_id cfg query community = Except.ok row.ID) ∧
    (query cred_swql credential_type ((snmpMapping cfg community).getD community) = [] →
      get_snmp_cred_id cfg query community =
        Except.error (PyError.valueError "Failed to lookup community in Orion.Credential!")) ∧
    (∀ (r1 r2 : CredRow) (rs : List CredRow),
      query cred_swql credential_type ((snmpMapping cfg community).getD community) =
        r1 :: r2 :: rs →
      get_snmp_cred_id cfg query community =
        Except.error (PyError.valueError "Failed to lookup community in Orion.Credential!")) := by
  refine ⟨fun row h => ?_, fun h => ?_, fun r1 r2 rs h => ?_⟩ <;>
    · unfold get_snmp_cred_id
      rw [get_snmp_cred_id_name]
      simp only [h]

/-- Witness for C7: a standard name resolving through the mapping to a
unique credential, and an unknown name falling back to the literal with no
matching credential. -/
theorem get_snmp_cred_id_cases_witness :
    get_snmp_cred_id ⟨[], some ⟨none, [("ro", "roro")]⟩⟩
      (fun _ _ n => if n = "roro" then [⟨42⟩] else []) "ro" = Except.ok 42 ∧
    get_snmp_cred_id ⟨[], some ⟨none, [("ro", "roro")]⟩⟩
      (fun _ _ n => if n = "roro" then [⟨42⟩] else []) "public" =
      Except.error (PyError.valueError "Failed to lookup community in Orion.Credential!") :=
  ⟨(get_snmp_cred_id_cases ⟨[], some ⟨none, [("ro", "roro")]⟩⟩
      (fun _ _ n => if n = "roro" then [⟨42⟩] else []) "ro").1 ⟨42⟩ (by decide),
   (get_snmp_cred_id_cases ⟨[], some ⟨none, [("ro", "roro")]⟩⟩
      (fun _ _ n => if n = "roro" then [⟨42⟩] else []) "public").2.1 (by decide)⟩

/-- C8: when the single query of `GetNodeId.run` raises, the bare
`except:` handler's subscript assignment hits the unbound local
`orion_data`, so the run fails with `UnboundLocalError` instead of
returning a mapping that distinguishes a failed query from zero rows. -/
theorem GetNodeId_run_swallows_failure {α : Type}
    (query : String → Except PyError α)
    (matchtype matchstring : Option String) (e : PyError)
    (hq : query (get_node_id_swql matchtype matchstring) = Except.error e) :
    GetNodeId_run query matchtype matchstring =
      Except.error PyError.unboundLocalError := by
  simp [GetNodeId_run, hq]

/-- Witness for C8: a query raising a transport error at a concrete call. -/
theorem GetNodeId_run_swallows_failure_witness :
    GetNodeId_run ((fun _ => Except.error (PyError.exception "boom")) :
        String → Except PyError Unit) none none =
      Except.error PyError.unboundLocalError :=
  GetNodeId_run_swallows_failure _ none none (PyError.exception "boom") rfl

/-- C3: with every earlier poll reporting status 1 (one sleep each) and
the first later poll's leading row carrying a non-1 status, the poller
stops there, counts one sleep per status-1 poll, maps 2 to `Complete`, 3
to `Error` and anything else to `Unknown`, and fills the record from the
terminal poll's row. -/
theorem get_ncm_transfer_results_terminal
    (pre : List (List TransferRow)) (row : TransferRow)
    (tail : List TransferRow) (rest : List (List TransferRow))
    (hpre : ∀ l ∈ pre, l.head?.map TransferRow.Status = some 1)
    (hrow : row.Status ≠ 1) :
    get_ncm_transfer_results (pre ++ (row :: tail) :: rest) =
      some (Except.ok (pre.length,
        mkTransferStatus
          (if row.Status = 2 then "Complete"
           else if row.Status = 3 then "Error" else "Unknown") row)) := by
  induction pre with
  | nil =>
    simp only [List.nil_append, List.length_nil]
    simp only [get_ncm_transfer_results]
    rw [if_neg hrow]
    split_ifs <;> rfl
  | cons l pre ih =>
    have hl := hpre l (List.mem_cons_self l pre)
    rcases l with _ | ⟨r, rs⟩
    · simp at hl
    · simp only [Option.map, List.head?, Option.some.injEq] at hl
      simp only [List.cons_append]
      simp only [get_ncm_transfer_results]
      rw [if_pos hl, ih (fun l2 hl2 => hpre l2 (List.mem_cons_of_mem _ hl2))]
      simp [List.length_cons]

/-- Witness for C3: the spec's three sequences `[1,1,2]`, `[3]`, `[99]`. -/
theorem get_ncm_transfer_results_terminal_witness :
    get_ncm_transfer_results
        [[⟨1, "s1", false, "e1", "o1", "u1"⟩], [⟨1, "s1", false, "e1", "o1", "u1"⟩],
         [⟨2, "s2", true, "e2", "o2", "u2"⟩]] =
      some (Except.ok (2, ⟨"Complete", "s2", true, "e2", "o2", "u2"⟩)) ∧
    get_ncm_transfer_results [[⟨3, "s3", false, "e3", "o3", "u3"⟩]] =
      some (Except.ok (0, ⟨"Error", "s3", false, "e3", "o3", "u3"⟩)) ∧
    get_ncm_transfer_results [[⟨99, "s9", false, "e9", "o9", "u9"⟩]] =
      some (Except.ok (0, ⟨"Unknown", "s9", false, "e9", "o9", "u9"⟩)) := by
  refine ⟨?_, ?_, ?_⟩
  · simpa using get_ncm_transfer_results_terminal
      [[⟨1, "s1", false, "e1", "o1", "u1"⟩], [⟨1, "s1", false, "e1", "o1", "u1"⟩]]
      ⟨2, "s2", true, "e2", "o2", "u2"⟩ [] [] (by decide) (by decide)
  · simpa using get_ncm_transfer_results_terminal []
      ⟨3, "s3", false, "e3", "o3", "u3"⟩ [] [] (by decide) (by decide)
  · simpa using get_ncm_transfer_results_terminal []
      ⟨99, "s9", false, "e9", "o9", "u9"⟩ [] [] (by decide) (by decide)

/-- C10: a poll whose `results` list is empty (after any number of
status-1 polls) makes line 234's `[0]` raise `IndexError`: no typed error,
no retry. -/
theorem get_ncm_transfer_results_empty_poll
    (pre rest : List (List TransferRow))
    (hpre : ∀ l ∈ pre, l.head?.map TransferRow.Status = some 1) :
    get_ncm_transfer_results (pre ++ ([] : List TransferRow) :: rest) =
      some (Except.error PyError.indexError) := by
  induction pre with
  | nil => rfl
  | cons l pre ih =>
    have hl := hpre l (List.mem_cons_self l pre)
    rcases l with _ | ⟨r, rs⟩
    · simp at hl
    · simp only [Option.map, List.head?, Option.some.injEq] at hl
      simp only [List.cons_append]
      simp only [get_ncm_transfer_results]
      rw [if_pos hl, ih (fun l2 hl2 => hpre l2 (List.mem_cons_of_mem _ hl2))]

/-- Witness for C10: one in-progress poll followed by an empty response. -/
theorem get_ncm_transfer_results_empty_poll_witness :
    get_ncm_transfer_results [[⟨1, "s1", false, "e1", "o1", "u1"⟩], []] =
      some (Except.error PyError.indexError) := by
  simpa using get_ncm_transfer_results_empty_poll
    [[⟨1, "s1", false, "e1", "o1", "u1"⟩]] [] (by decide)

end Orion
